import Mathlib

set_option maxHeartbeats 1000000

/-!
Verification development for the blueprint setup scripts
(`setup-blueprint.py` and `setup_domain_connection_role.py`).

The scripts are embedded shallowly: the loosely structured Python
dictionaries exchanged with the AWS SDK become the JSON-like type `Val`;
every remote call's outcome is an explicit oracle input (`Except` for calls
that can raise); pagination is modelled as the list of pages served before
the iteration either ends normally or raises. Each script function becomes
a total Lean function returning its result together with the list of remote
calls it issued (and, where relevant, the warning lines it printed).
-/

/-- JSON-like payload values, modelling the loosely structured Python
dictionaries the scripts pass to and receive from the AWS SDK. -/
inductive Val where
  | str : String → Val
  | nat : Nat → Val
  | bool : Bool → Val
  | list : List Val → Val
  | dict : List (String × Val) → Val

namespace Val

/-- Python `d.get(k)` on a dictionary: `none` when the key is absent or the value
is not a dictionary. -/
def get? : Val → String → Option Val
  | .dict kvs, k => kvs.lookup k
  | _, _ => none

/-- Python `d.get(k, default)`. -/
def getD (v : Val) (k : String) (dflt : Val) : Val := (v.get? k).getD dflt

/-- Python `k in d` on a dictionary (key membership). -/
def hasKey (v : Val) (k : String) : Bool := (v.get? k).isSome

/-- Python `d.get(k)` when the stored value is a string. -/
def getStr? (v : Val) (k : String) : Option String :=
  match v.get? k with
  | some (.str s) => some s
  | _ => none

/-- Python truthiness of a value. -/
def truthy : Val → Bool
  | .str s => !(s == "")
  | .nat n => !(n == 0)
  | .bool b => b
  | .list l => !l.isEmpty
  | .dict kvs => !kvs.isEmpty

/-- The elements of a list value (empty for non-lists). -/
def asValList : Val → List Val
  | .list l => l
  | _ => []

/-- The string elements of a list value (the scripts only ever put
profile-id strings in the lists this is applied to). -/
def asStrList (v : Val) : List String :=
  v.asValList.filterMap fun x => match x with | .str s => some s | _ => none

end Val

/-- Python truthiness of an optional value (`None` is falsy). -/
def truthyOpt : Option Val → Bool
  | none => false
  | some v => v.truthy

namespace SetupBlueprint

/-- Error messages raised by remote calls (`str(e)` in the scripts). -/
abbrev ErrMsg := String

/-- Whether `needle` occurs at the start of `hay` (character lists). -/
def leadsWith : List Char → List Char → Bool
  | [], _ => true
  | _ :: _, [] => false
  | n :: ns, h :: hs => n == h && leadsWith ns hs

/-- Python's `needle in hay` for strings: `needle` occurs as a contiguous
substring of `hay` (character lists). -/
def occursIn (needle : List Char) : List Char → Bool
  | [] => needle.isEmpty
  | c :: rest => leadsWith needle (c :: rest) || occursIn needle rest

/-- ASCII lowercasing of one character (`str.lower()`; the provider error
codes and messages the scripts classify are ASCII). -/
def lowerChar (c : Char) : Char :=
  if 65 ≤ c.toNat ∧ c.toNat ≤ 90 then Char.ofNat (c.toNat + 32) else c

/-- ASCII lowercasing of a string (`str.lower()`). -/
def lowerStr (s : String) : String := ⟨s.data.map lowerChar⟩

/-- Case-insensitive substring test used by the scripts' error
classification (`needle in str(e).lower()`; the needles are lowercase). -/
def containsLower (needle : String) (e : ErrMsg) : Bool :=
  occursIn needle.toList (lowerStr e).toList

/-- The test `'conflict' in str(e).lower()` — the classifier used by
`authorize_blueprint_for_domain_unit`. -/
def isConflictMsg (e : ErrMsg) : Bool := containsLower "conflict" e

/-- The test `'already exists' in str(e).lower() or 'conflict' in str(e).lower()` —
the classifier used by `authorize_all_users`. -/
def isBenignAllUsersErr (e : ErrMsg) : Bool :=
  containsLower "already exists" e || isConflictMsg e

/-- The process environment (`os.environ`), as an association list. -/
abbrev Env := List (String × String)

/-- Python `os.environ.get(k)`. -/
def envGet (env : Env) (k : String) : Option String := env.lookup k

/-- Python truthiness of `os.environ.get(k)` (absent or empty is falsy). -/
def envTruthy (env : Env) (k : String) : Bool :=
  match envGet env k with
  | none => false
  | some s => !(s == "")

/-- The `required` list in `get_config`. -/
def requiredKeys : List String := ["AWS_REGION", "DOMAIN_ID"]

/-- The list `[k for k in required if not os.environ.get(k)]`. -/
def missingKeys (env : Env) : List String :=
  requiredKeys.filter fun k => !envTruthy env k

/-- The configuration dictionary returned by `get_config`. -/
structure Config where
  AWS_PROFILE : String
  AWS_REGION : String
  DOMAIN_ID : String
  PROJECT_PROFILE_NAME : String

/-- Result of `get_config`: either `sys.exit(1)` after printing the listed
lines, or the configuration. -/
inductive ConfigResult where
  | exited (code : Nat) (msgs : List String)
  | ok (c : Config)

/-- Model of `get_config`: checks the required environment values, exits with code 1
listing the missing keys when any is absent, otherwise returns the
configuration with defaults for the optional keys. -/
def get_config (env : Env) : ConfigResult :=
  let missing := missingKeys env
  if missing.isEmpty then
    .ok { AWS_PROFILE := (envGet env "AWS_PROFILE").getD "default"
          AWS_REGION := (envGet env "AWS_REGION").getD ""
          DOMAIN_ID := (envGet env "DOMAIN_ID").getD ""
          PROJECT_PROFILE_NAME :=
            (envGet env "PROJECT_PROFILE_NAME").getD "NeMo-HyperPod-Profile" }
  else
    .exited 1 ["Error: Missing env vars: " ++ String.intercalate ", " missing,
               "Run: make env ENV=<name> first, or set in .env"]

/-- One page of a paginated listing. -/
abbrev Page := List Val

/-- The nested loop of `find_blueprint` / `find_project_profile`: scan the
served pages, in order, for the first item whose `name` equals `target`. -/
def scanPagesForName (target : String) : List Page → Option Val
  | [] => none
  | page :: rest =>
    match page.find? (fun item => item.getStr? "name" == some target) with
    | some item => some item
    | none => scanPagesForName target rest

/-- Model of `find_blueprint`. The paginator is lazy: `pages` are the pages served
before the iteration either ends or raises, and `err = some e` means the
iteration raises `e` after the served pages. A raise is caught, a warning
is printed and `None` is returned. Returns the lookup result and the
warning lines printed. -/
def find_blueprint (pages : List Page) (err : Option ErrMsg)
    (blueprint_name : String) : Option Val × List String :=
  match scanPagesForName blueprint_name pages with
  | some bp => (some bp, [])
  | none =>
    match err with
    | some e => (none, ["Warning: Could not list blueprints: " ++ e])
    | none => (none, [])

/-- Model of `find_project_profile`, with the same degradation policy as
`find_blueprint`. -/
def find_project_profile (pages : List Page) (err : Option ErrMsg)
    (profile_name : String) : Option Val × List String :=
  match scanPagesForName profile_name pages with
  | some p => (some p, [])
  | none =>
    match err with
    | some e => (none, ["Warning: Could not list project profiles: " ++ e])
    | none => (none, [])

/-- The remote calls a run of `setup-blueprint.py` issues, with the
payloads the claims inspect. The detail payload of the all-users grant is
recorded as the set of target profile ids, because the source builds it
from a Python `set` whose iteration order is unspecified. -/
inductive Call where
  | getCallerIdentity
  | listManagedBlueprints
  | getToolingBlueprintConfig
  | s3Upload
  | listCustomBlueprints
  | updateBlueprint (payload : List (String × Val))
  | createBlueprint (payload : List (String × Val))
  | putBlueprintConfig (payload : List (String × Val))
  | getDomain
  | addPolicyGrant (payload : List (String × Val))
  | listProjectProfiles
  | getProjectProfile
  | updateProjectProfile (payload : List (String × Val))
  | createProjectProfile (payload : List (String × Val))
  | listPolicyGrants
  | addAllUsersGrant (targets : Finset String)

/-- Whether a call mutates remote state. -/
def Call.isMutating : Call → Bool
  | .updateBlueprint _ => true
  | .createBlueprint _ => true
  | .putBlueprintConfig _ => true
  | .addPolicyGrant _ => true
  | .updateProjectProfile _ => true
  | .createProjectProfile _ => true
  | .addAllUsersGrant _ => true
  | _ => false

/-- Whether a call is the all-users profile grant. -/
def Call.isAddAllUsersGrant : Call → Bool
  | .addAllUsersGrant _ => true
  | _ => false

/-- The target set of the first all-users grant call in a log, if any. -/
def addAllUsersTargets : List Call → Option (Finset String)
  | [] => none
  | .addAllUsersGrant s :: _ => some s
  | _ :: rest => addAllUsersTargets rest

/-- One entry of `get_nemo_tooling_user_parameters` (they all share this
shape and key order). -/
def userParam (keyName desc dflt : String) : Val :=
  .dict [("fieldType", .str "STRING"), ("keyName", .str keyName),
         ("description", .str desc), ("isOptional", .bool true),
         ("defaultValue", .str dflt)]

/-- One of the twenty reserved `InstanceGroupSettings{i}` parameters. -/
def instanceGroupParam (i : Nat) : Val :=
  userParam ("InstanceGroupSettings" ++ toString i)
    ("Reserved: instance group settings " ++ toString i ++
      " (JSON array string). Leave empty to use defaults.") ""

/-- Model of `get_nemo_tooling_user_parameters`: the declarative parameter table of
the NeMo-Tooling blueprint. -/
def get_nemo_tooling_user_parameters : Val :=
  .list
    ([userParam "HyperPodClusterName" "Base name for the HyperPod cluster"
        "nemo-hyperpod",
      userParam "NeMoContainerRepository" "ECR repository for NeMo container"
        "nemo-framework-hyperpod",
      userParam "NeMoContainerTag" "NeMo container image tag" "25.04-eks",
      userParam "InstanceType1"
        "Instance type for training nodes (Karpenter manages scaling)"
        "ml.p4d.24xlarge",
      userParam "KubernetesVersion" "Kubernetes version for EKS cluster" "1.33",
      userParam "EnableTaskGovernance"
        "Enable HyperPod task governance (true/false)" "true",
      userParam "EnableFSxLustre"
        "Create FSx for Lustre file system (true/false)" "true",
      userParam "FSxStorageCapacity"
        "FSx storage capacity in GiB (1200, 2400, or multiples of 2400)" "1200",
      userParam "FSxPerUnitStorageThroughput"
        "FSx throughput per TiB (125/250/500/1000)" "250",
      userParam "DevModeDisableRollback"
        "Dev mode: disable nested stack rollback (true/false)" "true"]
      ++ (List.range 20).map (fun i => instanceGroupParam (i + 1)))

/-- The blueprint description used by both the create and the update call. -/
def blueprintDescription : String :=
  "NeMo Tooling - SageMaker domain with FSx and HyperPod cluster for distributed AI training"

/-- The `provisioningProperties` payload. -/
def provisioningPropertiesVal (template_url : String) : Val :=
  .dict [("cloudFormation", .dict [("templateUrl", .str template_url)])]

/-- The keyword arguments of the `update_environment_blueprint` call. -/
def update_environment_blueprint_payload
    (domain_id blueprint_id template_url : String) : List (String × Val) :=
  [("domainIdentifier", .str domain_id),
   ("identifier", .str blueprint_id),
   ("description", .str blueprintDescription),
   ("provisioningProperties", provisioningPropertiesVal template_url),
   ("userParameters", get_nemo_tooling_user_parameters)]

/-- The keyword arguments of the `create_environment_blueprint` call. -/
def create_environment_blueprint_payload
    (domain_id blueprint_name template_url : String) : List (String × Val) :=
  [("domainIdentifier", .str domain_id),
   ("name", .str blueprint_name),
   ("description", .str blueprintDescription),
   ("provisioningProperties", provisioningPropertiesVal template_url),
   ("userParameters", get_nemo_tooling_user_parameters)]

/-- The keyword arguments of `put_environment_blueprint_configuration`
(`config_params`, with `manageAccessRoleArn` added only when truthy). -/
def put_blueprint_config_payload
    (domain_id blueprint_id region provisioning_role_arn : String)
    (manage_access_role_arn : Option Val) : List (String × Val) :=
  let base := [("domainIdentifier", Val.str domain_id),
               ("environmentBlueprintIdentifier", Val.str blueprint_id),
               ("enabledRegions", Val.list [.str region]),
               ("provisioningRoleArn", Val.str provisioning_role_arn)]
  if truthyOpt manage_access_role_arn then
    base ++ [("manageAccessRoleArn", manage_access_role_arn.getD (.dict []))]
  else base

/-- How a run can stop before completing: `sys.exit(code)` after printing
the listed lines, or an uncaught exception. -/
inductive Abort where
  | exited (code : Nat) (msgs : List String)
  | raised (e : ErrMsg)

/-- The S3 bucket name derived in `create_or_update_nemo_tooling_blueprint`. -/
def bucket_name (account_id region : String) : String :=
  "nemo-hyperpod-templates-" ++ account_id ++ "-" ++ region

/-- The template URL returned by `upload_nemo_tooling_template`. -/
def template_url (bucket region : String) : String :=
  "https://" ++ bucket ++ ".s3." ++ region ++
    ".amazonaws.com/blueprints/nemo-tooling-blueprint.yaml"

/-- Oracle for the remote interactions of
`create_or_update_nemo_tooling_blueprint`. The bucket check, bucket
creation and upload are collapsed into the single outcome `upload`
(claims do not inspect the S3 calls); the outcome of
`put_environment_blueprint_configuration` is irrelevant because the source
wraps that call in a bare `try/except` that absorbs every failure, so no
oracle field is needed for it. -/
structure BlueprintOracle where
  templateExists : Bool
  upload : Except ErrMsg Unit
  pages : List Page
  pagesErr : Option ErrMsg
  updateResult : Except ErrMsg Unit
  createResult : Except ErrMsg Val

/-- The tail of `create_or_update_nemo_tooling_blueprint`: enable the
blueprint (any failure of the put call is absorbed) and return its id. -/
def enableAndReturn (domain_id blueprint_id region provisioning_role_arn : String)
    (manage_access_role_arn : Option Val) (calls : List Call) :
    Except Abort String × List Call :=
  (.ok blueprint_id,
   calls ++ [Call.putBlueprintConfig (put_blueprint_config_payload domain_id
     blueprint_id region provisioning_role_arn manage_access_role_arn)])

/-- Model of `create_or_update_nemo_tooling_blueprint`: upload the template, look
the blueprint up by name (degrading on listing failure), update it when
found and create it otherwise — the update and create calls are not
guarded, so any failure there propagates — then enable it. -/
def create_or_update_nemo_tooling_blueprint
    (domain_id provisioning_role_arn : String)
    (manage_access_role_arn : Option Val) (region account_id : String)
    (o : BlueprintOracle) : Except Abort String × List Call :=
  if !o.templateExists then
    (.error (.exited 1 ["Error: Template not found"]), [])
  else
    match o.upload with
    | .error e => (.error (.raised e), [.s3Upload])
    | .ok _ =>
      let url := template_url (bucket_name account_id region) region
      match (find_blueprint o.pages o.pagesErr "NeMo-Tooling").1 with
      | some bp =>
        match bp.getStr? "id" with
        | none => (.error (.raised "KeyError: id"), [.s3Upload, .listCustomBlueprints])
        | some blueprint_id =>
          let upd := Call.updateBlueprint
            (update_environment_blueprint_payload domain_id blueprint_id url)
          match o.updateResult with
          | .error e => (.error (.raised e), [.s3Upload, .listCustomBlueprints, upd])
          | .ok _ =>
            enableAndReturn domain_id blueprint_id region provisioning_role_arn
              manage_access_role_arn [.s3Upload, .listCustomBlueprints, upd]
      | none =>
        let cr := Call.createBlueprint
          (create_environment_blueprint_payload domain_id "NeMo-Tooling" url)
        match o.createResult with
        | .error e => (.error (.raised e), [.s3Upload, .listCustomBlueprints, cr])
        | .ok resp =>
          match resp.getStr? "id" with
          | none => (.error (.raised "KeyError: id"), [.s3Upload, .listCustomBlueprints, cr])
          | some blueprint_id =>
            enableAndReturn domain_id blueprint_id region provisioning_role_arn
              manage_access_role_arn [.s3Upload, .listCustomBlueprints, cr]

/-- The `Tooling` scan in `get_tooling_blueprint_config`. The inner
`break` only leaves the page's item loop, so the page loop keeps running
and a later page's match overwrites an earlier one; a matching item
without an `id` raises `KeyError`. -/
def toolingIdScan : List Page → Option String → Except ErrMsg (Option String)
  | [], acc => .ok acc
  | page :: rest, acc =>
    match page.find? (fun bp => bp.getStr? "name" == some "Tooling") with
    | none => toolingIdScan rest acc
    | some bp =>
      match bp.getStr? "id" with
      | some i => toolingIdScan rest (some i)
      | none => .error "KeyError: id"

/-- Oracle for `get_tooling_blueprint_config`: the served pages of the
managed-blueprint listing, an optional raise after them (this paginator is
not guarded, so the raise propagates), and the result of
`get_environment_blueprint_configuration`. -/
structure ToolingOracle where
  pages : List Page
  err : Option ErrMsg
  configResult : Except ErrMsg Val

/-- Model of `get_tooling_blueprint_config`: find the managed Tooling blueprint id
and its `manageAccessRoleArn` (the config fetch is guarded and degrades to
`None`). -/
def get_tooling_blueprint_config (o : ToolingOracle) :
    Except Abort (Option String × Option Val) × List Call :=
  match toolingIdScan o.pages none with
  | .error e => (.error (.raised e), [.listManagedBlueprints])
  | .ok acc =>
    match o.err with
    | some e => (.error (.raised e), [.listManagedBlueprints])
    | none =>
      match acc with
      | none => (.ok (none, none), [.listManagedBlueprints])
      | some tooling_id =>
        match o.configResult with
        | .error _ =>
          (.ok (some tooling_id, none),
           [.listManagedBlueprints, .getToolingBlueprintConfig])
        | .ok cfg =>
          (.ok (some tooling_id, cfg.get? "manageAccessRoleArn"),
           [.listManagedBlueprints, .getToolingBlueprintConfig])

/-- The `principal` payload shared by the two blueprint authorization
grants. -/
def contributorPrincipalVal (domain_unit_id : Val) : Val :=
  .dict [("project", .dict
    [("projectDesignation", .str "CONTRIBUTOR"),
     ("projectGrantFilter", .dict
       [("domainUnitFilter", .dict
         [("domainUnit", domain_unit_id),
          ("includeChildDomainUnits", .bool true)])])])]

/-- The keyword arguments of the `CREATE_ENVIRONMENT_PROFILE` grant call. -/
def create_environment_profile_grant_payload
    (domain_id entity_id : String) (domain_unit_id : Val) :
    List (String × Val) :=
  [("domainIdentifier", .str domain_id),
   ("entityType", .str "ENVIRONMENT_BLUEPRINT_CONFIGURATION"),
   ("entityIdentifier", .str entity_id),
   ("policyType", .str "CREATE_ENVIRONMENT_PROFILE"),
   ("principal", contributorPrincipalVal domain_unit_id),
   ("detail", .dict [("createEnvironmentProfile",
      .dict [("domainUnitId", domain_unit_id)])])]

/-- The keyword arguments of the `CREATE_ENVIRONMENT_FROM_BLUEPRINT` grant
call. -/
def create_environment_from_blueprint_grant_payload
    (domain_id entity_id : String) (domain_unit_id : Val) :
    List (String × Val) :=
  [("domainIdentifier", .str domain_id),
   ("entityType", .str "ENVIRONMENT_BLUEPRINT_CONFIGURATION"),
   ("entityIdentifier", .str entity_id),
   ("policyType", .str "CREATE_ENVIRONMENT_FROM_BLUEPRINT"),
   ("principal", contributorPrincipalVal domain_unit_id),
   ("detail", .dict [("createEnvironmentFromBlueprint", .dict [])])]

/-- Oracle for the two grant calls of `authorize_blueprint_for_domain_unit`. -/
structure GrantOracle where
  grant1 : Except ErrMsg Unit
  grant2 : Except ErrMsg Unit

/-- Model of `authorize_blueprint_for_domain_unit`: both grant calls absorb every
failure — a conflict-shaped one prints a success line, anything else
prints a warning — so this function never propagates an error. Returns
the calls issued and the warning lines printed. -/
def authorize_blueprint_for_domain_unit (domain_id blueprint_id : String)
    (domain_unit_id : Val) (account_id : String) (o : GrantOracle) :
    List Call × List String :=
  let entity_id := account_id ++ ":" ++ blueprint_id
  let c1 := Call.addPolicyGrant
    (create_environment_profile_grant_payload domain_id entity_id domain_unit_id)
  let w1 := match o.grant1 with
    | .ok _ => []
    | .error e =>
      if isConflictMsg e then []
      else ["Warning: Could not add CREATE_ENVIRONMENT_PROFILE grant: " ++ e]
  let c2 := Call.addPolicyGrant
    (create_environment_from_blueprint_grant_payload domain_id entity_id domain_unit_id)
  let w2 := match o.grant2 with
    | .ok _ => []
    | .error e =>
      if isConflictMsg e then []
      else ["Warning: Could not add CREATE_ENVIRONMENT_FROM_BLUEPRINT grant: " ++ e]
  ([c1, c2], w1 ++ w2)

/-- The `Tooling` environment configuration (deployment order 0) of
`create_or_update_project_profile`, before any id is attached. -/
def tooling_config_base (tooling_blueprint_id account_id region : String) :
    List (String × Val) :=
  [("environmentBlueprintId", .str tooling_blueprint_id),
   ("name", .str "Tooling"),
   ("description", .str "Base tooling environment (IAM roles, security groups)"),
   ("deploymentMode", .str "ON_CREATE"),
   ("deploymentOrder", .nat 0),
   ("awsAccount", .dict [("awsAccountId", .str account_id)]),
   ("awsRegion", .dict [("regionName", .str region)])]

/-- The `NeMo Tooling` environment configuration (deployment order 1),
before any id is attached. -/
def nemo_tooling_config_base (nemo_tooling_blueprint_id account_id region : String) :
    List (String × Val) :=
  [("environmentBlueprintId", .str nemo_tooling_blueprint_id),
   ("name", .str "NeMo Tooling"),
   ("description", .str "SageMaker domain with FSx and HyperPod cluster"),
   ("deploymentMode", .str "ON_CREATE"),
   ("deploymentOrder", .nat 1),
   ("awsAccount", .dict [("awsAccountId", .str account_id)]),
   ("awsRegion", .dict [("regionName", .str region)])]

/-- Attaching the preserved id to a config dictionary
(`tooling_config['id'] = ec_id` appends the key last). -/
def envConfigVal (base : List (String × Val)) : Option Val → Val
  | none => .dict base
  | some i => .dict (base ++ [("id", i)])

/-- The comparison `bp_id == blueprint_id` for the raw `environmentBlueprintId` value. -/
def bpIdMatches (bp_id : Option Val) (target : String) : Bool :=
  match bp_id with
  | some (.str s) => s == target
  | _ => false

/-- The id-preserving loop of `create_or_update_project_profile`: walk the
existing configurations, copying an assigned (truthy) id onto the Tooling
slot when the blueprint id matches the base Tooling blueprint, and onto
the NeMo slot when it matches the NeMo-Tooling blueprint (`elif`, so the
Tooling branch has priority; a later match overwrites an earlier one). -/
def assignIds (tooling_bp nemo_bp : String) :
    List Val → Option Val × Option Val → Option Val × Option Val
  | [], acc => acc
  | ec :: rest, acc =>
    let bp_id := ec.get? "environmentBlueprintId"
    let ec_id := ec.get? "id"
    assignIds tooling_bp nemo_bp rest
      (if bpIdMatches bp_id tooling_bp && truthyOpt ec_id then (ec_id, acc.2)
       else if bpIdMatches bp_id nemo_bp && truthyOpt ec_id then (acc.1, ec_id)
       else acc)

/-- The `environment_configs` list sent to the create or update call:
Tooling (order 0) first, then NeMo-Tooling (order 1), with whatever ids
the preservation loop attached. -/
def environment_configs_val (tooling_bp nemo_bp account_id region : String)
    (ids : Option Val × Option Val) : Val :=
  .list [envConfigVal (tooling_config_base tooling_bp account_id region) ids.1,
         envConfigVal (nemo_tooling_config_base nemo_bp account_id region) ids.2]

/-- The profile description used by both the create and the update call. -/
def profileDescription : String := "Project profile for NeMo Framework on HyperPod"

/-- The keyword arguments of the `update_project_profile` call. -/
def update_project_profile_payload (domain_id profile_id : String)
    (configs : Val) : List (String × Val) :=
  [("domainIdentifier", .str domain_id),
   ("identifier", .str profile_id),
   ("description", .str profileDescription),
   ("environmentConfigurations", configs)]

/-- The keyword arguments of the `create_project_profile` call. -/
def create_project_profile_payload (domain_id profile_name : String)
    (configs : Val) : List (String × Val) :=
  [("domainIdentifier", .str domain_id),
   ("name", .str profile_name),
   ("description", .str profileDescription),
   ("environmentConfigurations", configs),
   ("status", .str "ENABLED")]

/-- Oracle for the remote interactions of `create_or_update_project_profile`. -/
structure ProfileOracle where
  pages : List Page
  pagesErr : Option ErrMsg
  getDetails : Except ErrMsg Val
  updateResult : Except ErrMsg Unit
  createResult : Except ErrMsg Val

/-- Model of `create_or_update_project_profile`: look the profile up by name
(degrading on listing failure); on the update path fetch the existing
profile's configurations (a failure there is only a warning) and preserve
their ids, then update; otherwise create. The update and create calls are
not guarded, so any failure there propagates. -/
def create_or_update_project_profile
    (domain_id profile_name nemo_tooling_blueprint_id tooling_blueprint_id
      region account_id : String) (o : ProfileOracle) :
    Except Abort String × List Call :=
  match (find_project_profile o.pages o.pagesErr profile_name).1 with
  | some prof =>
    match prof.getStr? "id" with
    | none => (.error (.raised "KeyError: id"), [.listProjectProfiles])
    | some profile_id =>
      let ids :=
        match o.getDetails with
        | .error _ => (none, none)
        | .ok details =>
          assignIds tooling_blueprint_id nemo_tooling_blueprint_id
            ((details.getD "environmentConfigurations" (.list [])).asValList)
            (none, none)
      let configs := environment_configs_val tooling_blueprint_id
        nemo_tooling_blueprint_id account_id region ids
      let upd := Call.updateProjectProfile
        (update_project_profile_payload domain_id profile_id configs)
      match o.updateResult with
      | .error e => (.error (.raised e), [.listProjectProfiles, .getProjectProfile, upd])
      | .ok _ => (.ok profile_id, [.listProjectProfiles, .getProjectProfile, upd])
  | none =>
    let configs := environment_configs_val tooling_blueprint_id
      nemo_tooling_blueprint_id account_id region (none, none)
    let cr := Call.createProjectProfile
      (create_project_profile_payload domain_id profile_name configs)
    match o.createResult with
    | .error e => (.error (.raised e), [.listProjectProfiles, cr])
    | .ok resp =>
      match resp.getStr? "id" with
      | none => (.error (.raised "KeyError: id"), [.listProjectProfiles, cr])
      | some profile_id => (.ok profile_id, [.listProjectProfiles, cr])

/-- The grant scan of `authorize_all_users`: walk the listed grants; at
each all-users grant add its target profiles to the accumulated set, and
if the desired profile id is already among them return `none` (the
function prints a success line and returns without mutating). Otherwise
return the accumulated set. -/
def allUsersScan (profile_id : String) :
    List Val → Finset String → Option (Finset String)
  | [], acc => some acc
  | g :: rest, acc =>
    let principal := g.getD "principal" (.dict [])
    if principal.hasKey "user" &&
        (principal.getD "user" (.dict [])).hasKey "allUsersGrantFilter" then
      let profiles := (((g.getD "detail" (.dict []))
        |>.getD "createProjectFromProjectProfile" (.dict []))
        |>.getD "projectProfiles" (.list [])).asStrList
      let acc2 := acc ∪ profiles.toFinset
      if profile_id ∈ profiles then none
      else allUsersScan profile_id rest acc2
    else allUsersScan profile_id rest acc

/-- Oracle for the remote interactions of `authorize_all_users`. -/
structure AuthOracle where
  getProfile : Except ErrMsg Val
  listGrants : Except ErrMsg Val
  addGrant : Except ErrMsg Unit

/-- How `authorize_all_users` ends. Every branch returns normally — the
function never propagates an error. -/
inductive AuthOutcome where
  | profileFetchWarned (e : ErrMsg)
  | noDomainUnit
  | alreadyAuthorized
  | granted (targets : Finset String)
  | grantConflictAbsorbed (targets : Finset String)
  | grantWarned (targets : Finset String) (e : ErrMsg)

/-- Result of `authorize_all_users`: how it ended, the calls it issued and
the warning lines it printed. -/
structure AuthResult where
  outcome : AuthOutcome
  calls : List Call
  warns : List String

/-- Model of `authorize_all_users`: fetch the profile's domain unit, list the
existing grants (a listing failure leaves the accumulated set empty and
only warns), short-circuit when the profile is already authorized, and
otherwise issue one grant call whose target set is the union of the
accumulated existing ids and the desired profile id. A conflict-shaped
failure of the grant call is absorbed as success; any other failure is
only a warning. -/
def authorize_all_users (domain_id profile_id : String) (o : AuthOracle) :
    AuthResult :=
  match o.getProfile with
  | .error e =>
    ⟨.profileFetchWarned e, [.getProjectProfile],
     ["Warning: Could not get profile details: " ++ e]⟩
  | .ok profile =>
    if !truthyOpt (profile.get? "domainUnitId") then
      ⟨.noDomainUnit, [.getProjectProfile],
       ["Warning: No domain unit ID found on profile"]⟩
    else
      let scanned : Option (Finset String) × List String :=
        match o.listGrants with
        | .error e => (some ∅, ["Warning: Could not check existing grants: " ++ e])
        | .ok resp =>
          (allUsersScan profile_id ((resp.getD "grantList" (.list [])).asValList) ∅, [])
      match scanned with
      | (none, ws) => ⟨.alreadyAuthorized, [.getProjectProfile, .listPolicyGrants], ws⟩
      | (some existing, ws) =>
        let targets := existing ∪ {profile_id}
        let calls := [Call.getProjectProfile, Call.listPolicyGrants,
                      Call.addAllUsersGrant targets]
        match o.addGrant with
        | .ok _ => ⟨.granted targets, calls, ws⟩
        | .error e =>
          if isBenignAllUsersErr e then ⟨.grantConflictAbsorbed targets, calls, ws⟩
          else ⟨.grantWarned targets e, calls,
                ws ++ ["Warning: Could not add authorization: " ++ e]⟩

/-- Oracle for a whole run of `setup-blueprint.py`'s `main`. -/
structure Oracle where
  accountId : Except ErrMsg String
  tooling : ToolingOracle
  bp : BlueprintOracle
  domainResult : Except ErrMsg Val
  grants : GrantOracle
  prof : ProfileOracle
  auth : AuthOracle

/-- How a run of `main` ends. -/
inductive RunResult where
  | exited (code : Nat) (msgs : List String)
  | raised (e : ErrMsg)
  | completed (nemo_blueprint_id profile_id : String)

/-- Turning an aborted step into the run's result. -/
def abortResult : Abort → RunResult
  | .exited c m => .exited c m
  | .raised e => .raised e

/-- Model of `main` of `setup-blueprint.py`: read the configuration (exiting before
any remote call when required values are missing), resolve the account,
find the Tooling blueprint, reconcile the NeMo-Tooling blueprint,
authorize it for the root domain unit, reconcile the project profile, and
authorize all users. Returns how the run ended and every remote call
issued, in order. -/
def runMain (env : Env) (o : Oracle) : RunResult × List Call :=
  match get_config env with
  | .exited code msgs => (.exited code msgs, [])
  | .ok config =>
    match o.accountId with
    | .error e => (.raised e, [.getCallerIdentity])
    | .ok account_id =>
      let provisioning_role_arn := "arn:aws:iam::" ++ account_id ++
        ":role/service-role/AmazonSageMakerProvisioning-" ++ account_id
      let domain_id := config.DOMAIN_ID
      let region := config.AWS_REGION
      let profile_name := config.PROJECT_PROFILE_NAME
      let calls0 := [Call.getCallerIdentity]
      match get_tooling_blueprint_config o.tooling with
      | (.error ab, cs) => (abortResult ab, calls0 ++ cs)
      | (.ok (none, _), cs) =>
        (.exited 1 ["Error: Tooling blueprint not found. Ensure domain is properly configured."],
         calls0 ++ cs)
      | (.ok (some tooling_blueprint_id, manage_access_role_arn), cs) =>
        let calls1 := calls0 ++ cs
        match create_or_update_nemo_tooling_blueprint domain_id
            provisioning_role_arn manage_access_role_arn region account_id o.bp with
        | (.error ab, cs2) => (abortResult ab, calls1 ++ cs2)
        | (.ok nemo_id, cs2) =>
          let calls2 := calls1 ++ cs2
          match o.domainResult with
          | .error e => (.raised e, calls2 ++ [.getDomain])
          | .ok domain =>
            let calls3 := calls2 ++ [Call.getDomain]
            let root := domain.get? "rootDomainUnitId"
            let calls4 :=
              if truthyOpt root then
                calls3 ++ (authorize_blueprint_for_domain_unit domain_id nemo_id
                  (root.getD (.dict [])) account_id o.grants).1
              else calls3
            match create_or_update_project_profile domain_id profile_name
                nemo_id tooling_blueprint_id region account_id o.prof with
            | (.error ab, cs3) => (abortResult ab, calls4 ++ cs3)
            | (.ok profile_id, cs3) =>
              let calls5 := calls4 ++ cs3
              (.completed nemo_id profile_id,
               calls5 ++ (authorize_all_users domain_id profile_id o.auth).calls)

end SetupBlueprint

namespace SetupDomainConnectionRole

/-- A `botocore` `ClientError`: the provider error code
(`e.response["Error"]["Code"]`) and the rendered message (`str(e)`). -/
structure ClientErr where
  code : String
  msg : String

/-- The fixed, well-known role name. -/
def ROLE_NAME : String := "DataZoneDomainConnectionCreator"

/-- The caller-ARN pattern the trust policy admits:
roles named `DataZone-Env-{envId}-ConnectionCreatorRole-{suffix}` in the
given account. -/
def role_pattern (account_id : String) : String :=
  "arn:aws:iam::" ++ account_id ++ ":role/DataZone-Env-*-ConnectionCreatorRole-*"

/-- The trust policy document built by `create_role`, as a pure function
of the account id and the domain id. -/
def trust_policy (account_id domain_id : String) : Val :=
  .dict [("Version", .str "2012-10-17"),
    ("Statement", .list [.dict [
      ("Effect", .str "Allow"),
      ("Principal", .dict [("AWS", .str ("arn:aws:iam::" ++ account_id ++ ":root"))]),
      ("Action", .list [.str "sts:AssumeRole", .str "sts:TagSession"]),
      ("Condition", .dict [
        ("ArnLike", .dict [("aws:PrincipalArn", .str (role_pattern account_id))]),
        ("StringLike", .dict [("aws:RequestTag/datazone:projectId", .str "*")]),
        ("StringEquals", .dict [("aws:RequestTag/datazone:domainId", .str domain_id)])])]])]

/-- Oracle for the IAM interactions of `create_role`. -/
structure RoleOracle where
  createRole : Except ClientErr String
  updateAssume : Except ClientErr Unit
  getRoleArn : Except ClientErr String

/-- Model of `create_role`: try to create the role; when the failure's code is
`EntityAlreadyExists`, update the trust policy of the existing role and
return its ARN; any other failure (and any failure of the fallback calls)
propagates. -/
def create_role (o : RoleOracle) : Except ClientErr String :=
  match o.createRole with
  | .ok arn => .ok arn
  | .error e =>
    if e.code == "EntityAlreadyExists" then
      match o.updateAssume with
      | .error e2 => .error e2
      | .ok _ => o.getRoleArn
    else .error e

/-- The benign-error test of `create_user_profile`:
`"existing" in str(e).lower() or e.response["Error"]["Code"] in
["ConflictException", "ValidationException"]`. -/
def isBenignUserProfileErr (e : ClientErr) : Bool :=
  SetupBlueprint.containsLower "existing" e.msg ||
    e.code == "ConflictException" || e.code == "ValidationException"

/-- The benign-error test of `add_as_domain_owner`:
a `ValidationException` whose message says the owner already exists. -/
def isBenignOwnerErr (e : ClientErr) : Bool :=
  e.code == "ValidationException" &&
    SetupBlueprint.containsLower "already exists" e.msg

/-- Oracle for a whole run of `setup_domain_connection_role.py`'s `main`. -/
structure Script2Oracle where
  accountId : Except ClientErr String
  role : RoleOracle
  putRolePolicy : Except ClientErr Unit
  getDomain : Except ClientErr Val
  createUserProfile : Except ClientErr Val
  getUserProfile : Except ClientErr Val
  addEntityOwner : Except ClientErr Unit

/-- How a run of the role script ends: `return 1` for a missing domain id,
an uncaught exception, or `return 0` with the role ARN. -/
inductive Script2Result where
  | exitedEarly
  | raised (e : ClientErr)
  | done (role_arn : String)

/-- Model of `create_user_profile` of the role script: create the user profile,
absorbing an already-exists-shaped failure by fetching the existing
profile instead; any other failure propagates. -/
def create_user_profile (o : Script2Oracle) : Except ClientErr Val :=
  match o.createUserProfile with
  | .ok resp => .ok resp
  | .error e =>
    if isBenignUserProfileErr e then o.getUserProfile
    else .error e

/-- Model of `main` of `setup_domain_connection_role.py`: check the domain id,
create or update the role, attach the inline policy, resolve the root
domain unit, register the user profile and add it as domain owner. Only
`create_role`, `create_user_profile` and `add_as_domain_owner` classify
errors; every other failure propagates. -/
def main2 (domain_id : Option String) (o : Script2Oracle) : Script2Result :=
  match domain_id with
  | none => .exitedEarly
  | some d =>
    if d == "" then .exitedEarly
    else
      match o.accountId with
      | .error e => .raised e
      | .ok _account_id =>
        match create_role o.role with
        | .error e => .raised e
        | .ok role_arn =>
          match o.putRolePolicy with
          | .error e => .raised e
          | .ok _ =>
            match o.getDomain with
            | .error e => .raised e
            | .ok domain =>
              match domain.get? "rootDomainUnitId" with
              | none => .raised ⟨"KeyError", "rootDomainUnitId"⟩
              | some _root =>
                match create_user_profile o with
                | .error e => .raised e
                | .ok _profile =>
                  match o.addEntityOwner with
                  | .ok _ => .done role_arn
                  | .error e =>
                    if isBenignOwnerErr e then .done role_arn
                    else .raised e

end SetupDomainConnectionRole

namespace SetupBlueprint

/-- The keyword names of a call payload. -/
def payloadKeys (p : List (String × Val)) : List String := p.map Prod.fst

/-- Modelled from the spec: the collaborator's update semantics — an
update overwrites exactly the keys present in the payload and leaves
every other field of the remote resource unchanged (updates are
whole-object replaces of the supplied fields). -/
def applyUpdate (p : List (String × Val)) (resource : String → Option Val) :
    String → Option Val :=
  fun k =>
    match p.lookup k with
    | some v => some v
    | none => resource k

/-- Whether `v` is the numeric value `n`. -/
def isNatVal (v : Option Val) (n : Nat) : Bool :=
  match v with
  | some (.nat m) => m == n
  | _ => false

/-- The fixed shape claim C8 asserts of an environment-configuration list:
exactly two entries, base Tooling with deployment order 0 first, then
NeMo-Tooling with deployment order 1. -/
def checkConfigsPayload (tooling_bp nemo_bp : String)
    (p : List (String × Val)) : Bool :=
  match p.lookup "environmentConfigurations" with
  | some (.list [t, n]) =>
    (t.getStr? "environmentBlueprintId" == some tooling_bp) &&
    (t.getStr? "name" == some "Tooling") &&
    isNatVal (t.get? "deploymentOrder") 0 &&
    (n.getStr? "environmentBlueprintId" == some nemo_bp) &&
    (n.getStr? "name" == some "NeMo Tooling") &&
    isNatVal (n.get? "deploymentOrder") 1
  | _ => false

/-- The payloads of the profile-mutating calls in a log. -/
def profileMutationPayloads : List Call → List (List (String × Val))
  | [] => []
  | .updateProjectProfile p :: rest => p :: profileMutationPayloads rest
  | .createProjectProfile p :: rest => p :: profileMutationPayloads rest
  | _ :: rest => profileMutationPayloads rest

/-- The id values of the environment configurations carried by a payload. -/
def configIdsOfPayload (p : List (String × Val)) : Option (List (Option Val)) :=
  match p.lookup "environmentConfigurations" with
  | some (.list cs) => some (cs.map (fun c => c.get? "id"))
  | _ => none

/-- An existing configuration the preservation loop copies onto the slot
for `bp`: the blueprint id matches and the configuration carries a truthy
id. -/
def matchesAssigned (bp : String) (ec : Val) : Bool :=
  bpIdMatches (ec.get? "environmentBlueprintId") bp && truthyOpt (ec.get? "id")

/-- A listed all-users grant over the given target profiles, in the shape
`list_policy_grants` returns. -/
def allUsersGrantVal (profiles : List String) : Val :=
  .dict [("principal", .dict [("user", .dict [("allUsersGrantFilter", .dict [])])]),
         ("detail", .dict [("createProjectFromProjectProfile", .dict
           [("includeChildDomainUnits", .bool true),
            ("projectProfiles", .list (profiles.map Val.str))])])]

/-- A concrete environment with both required values present. -/
def envOK : Env := [("AWS_REGION", "us-test-1"), ("DOMAIN_ID", "dzd-test")]

/-- A listed managed Tooling blueprint. -/
def toolingBpItem : Val := .dict [("name", .str "Tooling"), ("id", .str "bp-tooling")]

/-- A Tooling oracle that finds the managed Tooling blueprint and its
manage-access role. -/
def baseToolingOracle : ToolingOracle :=
  { pages := [[toolingBpItem]]
    err := none
    configResult := .ok (.dict [("manageAccessRoleArn",
      .str "arn:aws:iam::111122223333:role/ManageAccess")]) }

/-- A run in which the custom-blueprint listing degrades (so the create
path is taken) and `create_environment_blueprint` fails with the given
error; every later step would succeed. -/
def c4Oracle (e : ErrMsg) : Oracle :=
  { accountId := .ok "111122223333"
    tooling := baseToolingOracle
    bp := { templateExists := true, upload := .ok (), pages := [],
            pagesErr := some "throttled", updateResult := .ok (),
            createResult := .error e }
    domainResult := .ok (.dict [("rootDomainUnitId", .str "du-root")])
    grants := ⟨.ok (), .ok ()⟩
    prof := { pages := [], pagesErr := none, getDetails := .ok (.dict []),
              updateResult := .ok (), createResult := .ok (.dict [("id", .str "prof-1")]) }
    auth := ⟨.ok (.dict [("domainUnitId", .str "du-root")]),
             .ok (.dict [("grantList", .list [])]), .ok ()⟩ }

/-- A run in which every guarded mutating call fails — the enable step
with `ePut`, the two blueprint grants with `eG1`/`eG2`, the all-users
grant with `eAll` — while the lookups succeed and the update paths are
taken. -/
def c4AbsorbOracle (eG1 eG2 eAll : ErrMsg) : Oracle :=
  { accountId := .ok "111122223333"
    tooling := baseToolingOracle
    bp := { templateExists := true, upload := .ok (),
            pages := [[.dict [("name", .str "NeMo-Tooling"), ("id", .str "bp-nemo")]]],
            pagesErr := none, updateResult := .ok (), createResult := .ok (.dict []) }
    domainResult := .ok (.dict [("rootDomainUnitId", .str "du-root")])
    grants := ⟨.error eG1, .error eG2⟩
    prof := { pages := [[.dict [("name", .str "NeMo-HyperPod-Profile"), ("id", .str "prof-1")]]],
              pagesErr := none,
              getDetails := .ok (.dict [("environmentConfigurations", .list [])]),
              updateResult := .ok (), createResult := .ok (.dict []) }
    auth := ⟨.ok (.dict [("domainUnitId", .str "du-root")]),
             .ok (.dict [("grantList", .list [])]), .error eAll⟩ }

/-- A fully successful run except that the all-users grant call fails
with the given error. -/
def c5GrantFailOracle (e : ErrMsg) : Oracle := c4AbsorbOracle "ok1" "ok2" e

/-- A run in which the profile exists and `update_project_profile` fails
with the given error. -/
def c5UpdateFailOracle (e : ErrMsg) : Oracle :=
  { c4AbsorbOracle "x" "x" "x" with
    grants := ⟨.ok (), .ok ()⟩
    prof := { pages := [[.dict [("name", .str "NeMo-HyperPod-Profile"), ("id", .str "prof-1")]]],
              pagesErr := none,
              getDetails := .ok (.dict [("environmentConfigurations", .list [])]),
              updateResult := .error e, createResult := .ok (.dict []) }
    auth := ⟨.ok (.dict [("domainUnitId", .str "du-root")]),
             .ok (.dict [("grantList", .list [])]), .ok ()⟩ }

/-- The oracle of the C2 scenario: the profile listing returns one profile
named `profile_name` with id `pid`, and the details fetch returns the
given existing configurations. -/
def c2Oracle (profile_name pid : String) (ecs : List Val) : ProfileOracle :=
  { pages := [[.dict [("name", .str profile_name), ("id", .str pid)]]]
    pagesErr := none
    getDetails := .ok (.dict [("environmentConfigurations", .list ecs)])
    updateResult := .ok ()
    createResult := .ok (.dict []) }

end SetupBlueprint

namespace SetupDomainConnectionRole

/-- A role-script run in which `iam.create_role` fails with the given
error and every other call succeeds. -/
def script2Oracle (eCreate : ClientErr) (arn : String) : Script2Oracle :=
  { accountId := .ok "111122223333"
    role := { createRole := .error eCreate, updateAssume := .ok (), getRoleArn := .ok arn }
    putRolePolicy := .ok ()
    getDomain := .ok (.dict [("rootDomainUnitId", .str "du-root")])
    createUserProfile := .ok (.dict [("id", .str "up-1")])
    getUserProfile := .ok (.dict [("id", .str "up-1")])
    addEntityOwner := .ok () }

end SetupDomainConnectionRole

open SetupBlueprint SetupDomainConnectionRole

/-- The page scan of the locator returns exactly the first item, in
document order, whose name matches. -/
theorem scanPagesForName_eq_find? (target : String) (pages : List Page) :
    scanPagesForName target pages
      = pages.flatten.find? (fun item => item.getStr? "name" == some target) := by
  induction pages with
  | nil => rfl
  | cons page rest ih =>
    rw [List.flatten_cons, List.find?_append, ← ih]
    cases h : page.find? (fun item => item.getStr? "name" == some target) <;>
      simp [scanPagesForName, h, Option.or]

/-- C3: for every scope and name, a raise during the paginated listing
makes the lookup return Absent (`none`) with a logged warning instead of
propagating (the raise is reached exactly when no served page matched);
and when the listing succeeds the lookup returns the first listed resource
whose name equals the natural-key name, or Absent if none matches. -/
theorem c3_lookup_degradation (name : String) (pages : List Page) (e : ErrMsg)
    (hnm : pages.flatten.find? (fun item => item.getStr? "name" == some name) = none) :
    find_blueprint pages (some e) name
      = (none, ["Warning: Could not list blueprints: " ++ e]) ∧
    find_project_profile pages (some e) name
      = (none, ["Warning: Could not list project profiles: " ++ e]) ∧
    ∀ pages2 : List Page,
      (find_blueprint pages2 none name).1
        = pages2.flatten.find? (fun item => item.getStr? "name" == some name) ∧
      (find_project_profile pages2 none name).1
        = pages2.flatten.find? (fun item => item.getStr? "name" == some name) := by
  refine ⟨?_, ?_, ?_⟩
  · unfold find_blueprint
    rw [scanPagesForName_eq_find?, hnm]
  · unfold find_project_profile
    rw [scanPagesForName_eq_find?, hnm]
  · intro pages2
    constructor
    · unfold find_blueprint
      rw [scanPagesForName_eq_find?]
      cases pages2.flatten.find? (fun item => item.getStr? "name" == some name) <;> rfl
    · unfold find_project_profile
      rw [scanPagesForName_eq_find?]
      cases pages2.flatten.find? (fun item => item.getStr? "name" == some name) <;> rfl

/-- Witness for C3 at a concrete non-matching page and error. -/
theorem c3_lookup_degradation_witness :
    find_blueprint [[Val.dict [("name", Val.str "Other")]]] (some "boom") "X"
      = (none, ["Warning: Could not list blueprints: boom"]) ∧
    find_project_profile [[Val.dict [("name", Val.str "Other")]]] (some "boom") "X"
      = (none, ["Warning: Could not list project profiles: boom"]) ∧
    ∀ pages2 : List Page,
      (find_blueprint pages2 none "X").1
        = pages2.flatten.find? (fun item => item.getStr? "name" == some "X") ∧
      (find_project_profile pages2 none "X").1
        = pages2.flatten.find? (fun item => item.getStr? "name" == some "X") :=
  c3_lookup_degradation "X" [[Val.dict [("name", Val.str "Other")]]] "boom" rfl

/-- C7: the composed trust document's Principal is the account root, its
conditions pin the assuming principal's ARN to the fixed
`DataZone-Env-*-ConnectionCreatorRole-*` pattern of that account, require
the session tag `datazone:domainId` to equal the given domain id and the
session tag `datazone:projectId` to be present (wildcard); and the
composition is deterministic in the pair (account id, domain id). -/
theorem c7_trust_policy_composer (account_id domain_id a2 d2 : String)
    (ha : a2 = account_id) (hd : d2 = domain_id) :
    trust_policy a2 d2 = trust_policy account_id domain_id ∧
    ∃ s, (trust_policy account_id domain_id).get? "Statement"
        = some (.list [s]) ∧
      s.get? "Principal" = some (.dict [("AWS",
        .str ("arn:aws:iam::" ++ account_id ++ ":root"))]) ∧
      (s.getD "Condition" (.dict [])).get? "ArnLike" = some (.dict
        [("aws:PrincipalArn", .str (role_pattern account_id))]) ∧
      (s.getD "Condition" (.dict [])).get? "StringEquals" = some (.dict
        [("aws:RequestTag/datazone:domainId", .str domain_id)]) ∧
      (s.getD "Condition" (.dict [])).get? "StringLike" = some (.dict
        [("aws:RequestTag/datazone:projectId", .str "*")]) := by
  subst ha hd
  exact ⟨rfl, _, rfl, rfl, rfl, rfl, rfl⟩

/-- Witness for C7 at a concrete account and domain. -/
theorem c7_trust_policy_composer_witness :
    trust_policy "111122223333" "dzd-test" = trust_policy "111122223333" "dzd-test" ∧
    ∃ s, (trust_policy "111122223333" "dzd-test").get? "Statement"
        = some (.list [s]) ∧
      s.get? "Principal" = some (.dict [("AWS",
        .str ("arn:aws:iam::" ++ "111122223333" ++ ":root"))]) ∧
      (s.getD "Condition" (.dict [])).get? "ArnLike" = some (.dict
        [("aws:PrincipalArn", .str (role_pattern "111122223333"))]) ∧
      (s.getD "Condition" (.dict [])).get? "StringEquals" = some (.dict
        [("aws:RequestTag/datazone:domainId", .str "dzd-test")]) ∧
      (s.getD "Condition" (.dict [])).get? "StringLike" = some (.dict
        [("aws:RequestTag/datazone:projectId", .str "*")]) :=
  c7_trust_policy_composer "111122223333" "dzd-test" "111122223333" "dzd-test" rfl rfl

/-- C10: neither update payload carries the resource's `name` — the
blueprint update sends exactly the identifiers, description, provisioning
properties and parameter list, the profile update exactly the identifiers,
description and configuration list — so under the collaborator's
overwrite-exactly-the-supplied-keys update semantics the remote `name`
field is unchanged by every update path. -/
theorem c10_updates_never_carry_name
    (domain_id blueprint_id url profile_id : String) (configs : Val) :
    payloadKeys (update_environment_blueprint_payload domain_id blueprint_id url)
      = ["domainIdentifier", "identifier", "description",
         "provisioningProperties", "userParameters"] ∧
    payloadKeys (update_project_profile_payload domain_id profile_id configs)
      = ["domainIdentifier", "identifier", "description",
         "environmentConfigurations"] ∧
    (∀ resource : String → Option Val,
      applyUpdate (update_environment_blueprint_payload domain_id blueprint_id url)
        resource "name" = resource "name") ∧
    (∀ resource : String → Option Val,
      applyUpdate (update_project_profile_payload domain_id profile_id configs)
        resource "name" = resource "name") :=
  ⟨rfl, rfl, fun _ => rfl, fun _ => rfl⟩

/-- C6: with any required environment value (AWS_REGION or DOMAIN_ID)
unset, the run terminates with exit code 1, printing exactly the list of
the missing keys plus the remediation hint, and issues no remote calls;
with both present, `get_config` returns a configuration carrying them plus
defaults for the optional keys. -/
theorem c6_missing_config :
    (∀ (env : Env) (o : Oracle), missingKeys env ≠ [] →
      runMain env o = (.exited 1
        ["Error: Missing env vars: " ++ String.intercalate ", " (missingKeys env),
         "Run: make env ENV=<name> first, or set in .env"], [])) ∧
    (∀ (env : Env) (region dom : String),
      envGet env "AWS_REGION" = some region → region ≠ "" →
      envGet env "DOMAIN_ID" = some dom → dom ≠ "" →
      ∃ c, get_config env = .ok c ∧ c.AWS_REGION = region ∧ c.DOMAIN_ID = dom ∧
        (envGet env "AWS_PROFILE" = none → c.AWS_PROFILE = "default") ∧
        (envGet env "PROJECT_PROFILE_NAME" = none →
          c.PROJECT_PROFILE_NAME = "NeMo-HyperPod-Profile")) := by
  constructor
  · intro env o hm
    have hne : (missingKeys env).isEmpty = false := by
      cases h : missingKeys env with
      | nil => exact absurd h hm
      | cons a l => rfl
    have h1 : get_config env = .exited 1
        ["Error: Missing env vars: " ++ String.intercalate ", " (missingKeys env),
         "Run: make env ENV=<name> first, or set in .env"] := by
      unfold get_config
      simp [hne]
    unfold runMain
    rw [h1]
  · intro env region dom h1 h2 h3 h4
    have hr : envTruthy env "AWS_REGION" = true := by
      simp [envTruthy, h1, h2]
    have hd : envTruthy env "DOMAIN_ID" = true := by
      simp [envTruthy, h3, h4]
    have hm : missingKeys env = [] := by
      simp [missingKeys, requiredKeys, hr, hd]
    refine ⟨{ AWS_PROFILE := (envGet env "AWS_PROFILE").getD "default"
              AWS_REGION := (envGet env "AWS_REGION").getD ""
              DOMAIN_ID := (envGet env "DOMAIN_ID").getD ""
              PROJECT_PROFILE_NAME :=
                (envGet env "PROJECT_PROFILE_NAME").getD "NeMo-HyperPod-Profile" },
            ?_, ?_, ?_, ?_, ?_⟩
    · unfold get_config
      simp [hm]
    · show (envGet env "AWS_REGION").getD "" = region
      rw [h1]; rfl
    · show (envGet env "DOMAIN_ID").getD "" = dom
      rw [h3]; rfl
    · intro h
      show (envGet env "AWS_PROFILE").getD "default" = "default"
      rw [h]; rfl
    · intro h
      show (envGet env "PROJECT_PROFILE_NAME").getD "NeMo-HyperPod-Profile"
        = "NeMo-HyperPod-Profile"
      rw [h]; rfl

/-- Witness for C6: a run with DOMAIN_ID unset exits with code 1 and an
empty call log, and the full environment yields the configuration. -/
theorem c6_missing_config_witness :
    runMain [("AWS_REGION", "us-test-1")] (c4Oracle "x") = (.exited 1
      ["Error: Missing env vars: "
         ++ String.intercalate ", " (missingKeys [("AWS_REGION", "us-test-1")]),
       "Run: make env ENV=<name> first, or set in .env"], []) ∧
    ∃ c, get_config envOK = .ok c ∧ c.AWS_REGION = "us-test-1" ∧
      c.DOMAIN_ID = "dzd-test" ∧
      (envGet envOK "AWS_PROFILE" = none → c.AWS_PROFILE = "default") ∧
      (envGet envOK "PROJECT_PROFILE_NAME" = none →
        c.PROJECT_PROFILE_NAME = "NeMo-HyperPod-Profile") :=
  ⟨c6_missing_config.1 [("AWS_REGION", "us-test-1")] (c4Oracle "x") (by decide),
   c6_missing_config.2 envOK "us-test-1" "dzd-test" rfl (by decide) rfl (by decide)⟩

/-- Any update payload built from the fixed configuration pair has the
C8 shape, whatever ids the preservation loop attached. -/
theorem checkConfigs_update (tbp nbp account_id region domain_id pid : String)
    (ids : Option Val × Option Val) :
    checkConfigsPayload tbp nbp
      (update_project_profile_payload domain_id pid
        (environment_configs_val tbp nbp account_id region ids)) = true := by
  obtain ⟨i1, i2⟩ := ids
  cases i1 <;> cases i2 <;>
    simp [checkConfigsPayload, update_project_profile_payload,
      environment_configs_val, envConfigVal, tooling_config_base,
      nemo_tooling_config_base, Val.getStr?, Val.get?, isNatVal, List.lookup]

/-- The create payload built from the fixed configuration pair has the
C8 shape. -/
theorem checkConfigs_create (tbp nbp account_id region domain_id pname : String) :
    checkConfigsPayload tbp nbp
      (create_project_profile_payload domain_id pname
        (environment_configs_val tbp nbp account_id region (none, none))) = true := by
  simp [checkConfigsPayload, create_project_profile_payload,
    environment_configs_val, envConfigVal, tooling_config_base,
    nemo_tooling_config_base, Val.getStr?, Val.get?, isNatVal, List.lookup]

/-- C8: on every run — whatever the oracle answers, so on both the create
and the update path — each profile-mutating call carries an environment
configuration list of exactly two entries in the fixed order: the base
Tooling registration with deployment order 0 first, then the NeMo-Tooling
registration with deployment order 1. -/
theorem c8_profile_configs_fixed_order
    (domain_id profile_name nbp tbp region account_id : String)
    (o : ProfileOracle) :
    (profileMutationPayloads
      (create_or_update_project_profile domain_id profile_name nbp tbp
        region account_id o).2).all (checkConfigsPayload tbp nbp) = true := by
  unfold create_or_update_project_profile
  cases hf : (find_project_profile o.pages o.pagesErr profile_name).1 with
  | none =>
    cases hc : o.createResult with
    | error e =>
      simp [profileMutationPayloads, checkConfigs_create]
    | ok resp =>
      cases hr : resp.getStr? "id" <;>
        simp [hr, profileMutationPayloads, checkConfigs_create]
  | some prof =>
    cases hp : prof.getStr? "id" with
    | none => simp [hp, profileMutationPayloads]
    | some pid =>
      cases hu : o.updateResult <;>
        simp [hp, hu, profileMutationPayloads, checkConfigs_update]

/-- Lemma: `find?` returns the head of the filtered list. -/
theorem find?_as_filter_head? {α : Type} (p : α → Bool) (l : List α) :
    l.find? p = (l.filter p).head? := by
  induction l with
  | nil => rfl
  | cons a rest ih =>
    rw [List.find?_cons, List.filter_cons]
    cases h : p a with
    | false => simpa using ih
    | true => simp

/-- The Tooling slot of the id-preservation loop ends up carrying the id
of the last existing configuration whose blueprint id matches the base
Tooling blueprint with a truthy id, and is left as it started when none
matches. -/
theorem assignIds_fst (tbp nbp : String) (ecs : List Val)
    (acc : Option Val × Option Val) :
    (assignIds tbp nbp ecs acc).1 =
      ((ecs.reverse.find? (matchesAssigned tbp)).map
        (fun ec => ec.get? "id")).getD acc.1 := by
  induction ecs generalizing acc with
  | nil => rfl
  | cons ec rest ih =>
    rw [List.reverse_cons, List.find?_append]
    show (assignIds tbp nbp rest
      (if bpIdMatches (ec.get? "environmentBlueprintId") tbp && truthyOpt (ec.get? "id")
        then (ec.get? "id", acc.2)
        else if bpIdMatches (ec.get? "environmentBlueprintId") nbp && truthyOpt (ec.get? "id")
        then (acc.1, ec.get? "id")
        else acc)).1 = _
    rw [ih]
    cases h1 : matchesAssigned tbp ec with
    | true =>
      have h1' : (bpIdMatches (ec.get? "environmentBlueprintId") tbp
          && truthyOpt (ec.get? "id")) = true := h1
      rw [if_pos h1']
      cases hf : rest.reverse.find? (matchesAssigned tbp) <;>
        simp [hf, List.find?, h1, Option.or]
    | false =>
      have h1' : (bpIdMatches (ec.get? "environmentBlueprintId") tbp
          && truthyOpt (ec.get? "id")) = false := h1
      rw [if_neg (by simp [h1'])]
      cases hf : rest.reverse.find? (matchesAssigned tbp) with
      | none =>
        cases h2 : (bpIdMatches (ec.get? "environmentBlueprintId") nbp
            && truthyOpt (ec.get? "id")) <;>
          simp [hf, List.find?, h1, Option.or, h2]
      | some ec2 => simp [hf, Option.or]

/-- A blueprint id value cannot match two different blueprint names. -/
theorem bpIdMatches_of_ne (v : Option Val) (a b : String) (hne : a ≠ b)
    (h : bpIdMatches v b = true) : bpIdMatches v a = false := by
  cases v with
  | none => rfl
  | some w =>
    cases w with
    | str s =>
      simp only [bpIdMatches, beq_iff_eq] at h
      subst h
      simp only [bpIdMatches]
      exact beq_eq_false_iff_ne.mpr (Ne.symm hne)
    | nat n => rfl
    | bool b2 => rfl
    | list l => rfl
    | dict d => rfl

/-- The NeMo slot of the id-preservation loop ends up carrying the id of
the last existing configuration whose blueprint id matches the NeMo
blueprint with a truthy id, and is left as it started when none matches.
The two blueprint ids being distinct, the `elif` never diverts a NeMo
match into the Tooling branch. -/
theorem assignIds_snd (tbp nbp : String) (hne : tbp ≠ nbp) (ecs : List Val)
    (acc : Option Val × Option Val) :
    (assignIds tbp nbp ecs acc).2 =
      ((ecs.reverse.find? (matchesAssigned nbp)).map
        (fun ec => ec.get? "id")).getD acc.2 := by
  induction ecs generalizing acc with
  | nil => rfl
  | cons ec rest ih =>
    rw [List.reverse_cons, List.find?_append]
    show (assignIds tbp nbp rest
      (if bpIdMatches (ec.get? "environmentBlueprintId") tbp && truthyOpt (ec.get? "id")
        then (ec.get? "id", acc.2)
        else if bpIdMatches (ec.get? "environmentBlueprintId") nbp && truthyOpt (ec.get? "id")
        then (acc.1, ec.get? "id")
        else acc)).2 = _
    rw [ih]
    cases h2 : matchesAssigned nbp ec with
    | true =>
      have hb : bpIdMatches (ec.get? "environmentBlueprintId") nbp = true := by
        have h := h2
        simp only [matchesAssigned, Bool.and_eq_true] at h
        exact h.1
      have h1' : (bpIdMatches (ec.get? "environmentBlueprintId") tbp
          && truthyOpt (ec.get? "id")) = false := by
        rw [bpIdMatches_of_ne _ tbp nbp hne hb]
        rfl
      have h2' : (bpIdMatches (ec.get? "environmentBlueprintId") nbp
          && truthyOpt (ec.get? "id")) = true := h2
      rw [if_neg (by simp [h1']), if_pos h2']
      cases hf : rest.reverse.find? (matchesAssigned nbp) <;>
        simp [hf, List.find?, h2, Option.or]
    | false =>
      have h2' : (bpIdMatches (ec.get? "environmentBlueprintId") nbp
          && truthyOpt (ec.get? "id")) = false := h2
      cases h1 : (bpIdMatches (ec.get? "environmentBlueprintId") tbp
          && truthyOpt (ec.get? "id")) with
      | true =>
        cases hf : rest.reverse.find? (matchesAssigned nbp) <;>
          simp [hf, List.find?, h2, h2', Option.or]
      | false =>
        cases hf : rest.reverse.find? (matchesAssigned nbp) <;>
          simp [hf, List.find?, h2, h2', Option.or]

/-- C2: updating an existing CompositeProfile, every desired environment
configuration whose owning blueprint id matches an existing configuration
with an assigned id carries that previously-assigned id in the update
payload — the base Tooling slot and the NeMo-Tooling slot alike — rather
than omitting it or generating a new one; and when there is no existing
configuration with a matching assigned id, both desired configurations are
sent without an id (treated as newly introduced). -/
theorem c2_environment_config_identity_preserved
    (domain_id profile_name pid tbp nbp account_id region : String)
    (ecs : List Val) (ecT ecN : Val)
    (hne : tbp ≠ nbp)
    (hT : ecs.filter (matchesAssigned tbp) = [ecT])
    (hN : ecs.filter (matchesAssigned nbp) = [ecN]) :
    (profileMutationPayloads
      (create_or_update_project_profile domain_id profile_name nbp tbp
        region account_id (c2Oracle profile_name pid ecs)).2).map configIdsOfPayload
      = [some [ecT.get? "id", ecN.get? "id"]] ∧
    (profileMutationPayloads
      (create_or_update_project_profile domain_id profile_name nbp tbp
        region account_id (c2Oracle profile_name pid [])).2).map configIdsOfPayload
      = [some [none, none]] := by
  have hmatchT : matchesAssigned tbp ecT = true := by
    have : ecT ∈ ecs.filter (matchesAssigned tbp) := by
      rw [hT]; exact List.mem_cons_self ecT []
    exact List.of_mem_filter this
  have hmatchN : matchesAssigned nbp ecN = true := by
    have : ecN ∈ ecs.filter (matchesAssigned nbp) := by
      rw [hN]; exact List.mem_cons_self ecN []
    exact List.of_mem_filter this
  obtain ⟨vT, hvT⟩ : ∃ v, ecT.get? "id" = some v := by
    have h := hmatchT
    simp only [matchesAssigned, Bool.and_eq_true] at h
    cases hvv : ecT.get? "id" with
    | none => rw [hvv] at h; exact absurd h.2 (by simp [truthyOpt])
    | some v => exact ⟨v, rfl⟩
  obtain ⟨vN, hvN⟩ : ∃ v, ecN.get? "id" = some v := by
    have h := hmatchN
    simp only [matchesAssigned, Bool.and_eq_true] at h
    cases hvv : ecN.get? "id" with
    | none => rw [hvv] at h; exact absurd h.2 (by simp [truthyOpt])
    | some v => exact ⟨v, rfl⟩
  have hids : assignIds tbp nbp ecs (none, none) = (some vT, some vN) := by
    have h1 := assignIds_fst tbp nbp ecs (none, none)
    have h2 := assignIds_snd tbp nbp hne ecs (none, none)
    have hrevT : ecs.reverse.find? (matchesAssigned tbp) = some ecT := by
      rw [find?_as_filter_head?, List.filter_reverse, hT]
      rfl
    have hrevN : ecs.reverse.find? (matchesAssigned nbp) = some ecN := by
      rw [find?_as_filter_head?, List.filter_reverse, hN]
      rfl
    rw [hrevT] at h1
    rw [hrevN] at h2
    refine Prod.ext ?_ ?_
    · rw [h1]
      simp [hvT]
    · rw [h2]
      simp [hvN]
  have hfind : ∀ l : List Val, (find_project_profile (c2Oracle profile_name pid l).pages
      (c2Oracle profile_name pid l).pagesErr profile_name).1
      = some (.dict [("name", .str profile_name), ("id", .str pid)]) := by
    intro l
    simp [find_project_profile, scanPagesForName, c2Oracle, List.find?,
      Val.getStr?, Val.get?, List.lookup]
  constructor
  · unfold create_or_update_project_profile
    rw [hfind ecs]
    show (profileMutationPayloads [Call.listProjectProfiles, Call.getProjectProfile,
      Call.updateProjectProfile (update_project_profile_payload domain_id pid
        (environment_configs_val tbp nbp account_id region
          (assignIds tbp nbp
            (((Val.dict [("environmentConfigurations", Val.list ecs)]).getD
              "environmentConfigurations" (.list [])).asValList) (none, none))))]).map
        configIdsOfPayload = [some [ecT.get? "id", ecN.get? "id"]]
    rw [show ((Val.dict [("environmentConfigurations", Val.list ecs)]).getD
        "environmentConfigurations" (.list [])).asValList = ecs from rfl]
    rw [hids, hvT, hvN]
    rfl
  · unfold create_or_update_project_profile
    rw [hfind []]
    rfl

/-- Witness for C2: existing Tooling and NeMo-Tooling configurations with
ids `E1` and `E2` are both carried onto their slots of the update payload;
with no existing configurations both slots are sent without an id. -/
theorem c2_environment_config_identity_preserved_witness :
    (profileMutationPayloads
      (create_or_update_project_profile "dzd-test" "P" "bp-nemo" "bp-tooling"
        "us-test-1" "111122223333"
        (c2Oracle "P" "prof-1"
          [Val.dict [("environmentBlueprintId", Val.str "bp-tooling"),
            ("id", Val.str "E1")],
           Val.dict [("environmentBlueprintId", Val.str "bp-nemo"),
            ("id", Val.str "E2")]])).2).map configIdsOfPayload
      = [some [(Val.dict [("environmentBlueprintId", Val.str "bp-tooling"),
          ("id", Val.str "E1")]).get? "id",
          (Val.dict [("environmentBlueprintId", Val.str "bp-nemo"),
          ("id", Val.str "E2")]).get? "id"]] ∧
    (profileMutationPayloads
      (create_or_update_project_profile "dzd-test" "P" "bp-nemo" "bp-tooling"
        "us-test-1" "111122223333" (c2Oracle "P" "prof-1" [])).2).map
      configIdsOfPayload = [some [none, none]] :=
  c2_environment_config_identity_preserved "dzd-test" "P" "prof-1" "bp-tooling"
    "bp-nemo" "111122223333" "us-test-1"
    [Val.dict [("environmentBlueprintId", Val.str "bp-tooling"), ("id", Val.str "E1")],
     Val.dict [("environmentBlueprintId", Val.str "bp-nemo"), ("id", Val.str "E2")]]
    (Val.dict [("environmentBlueprintId", Val.str "bp-tooling"), ("id", Val.str "E1")])
    (Val.dict [("environmentBlueprintId", Val.str "bp-nemo"), ("id", Val.str "E2")])
    (by decide) rfl rfl

/-- Extracting the string elements of a wrapped string list gives the
list back. -/
theorem asStrList_map_str (ps : List String) :
    Val.asStrList (.list (ps.map Val.str)) = ps := by
  induction ps with
  | nil => rfl
  | cons p rest ih =>
    show List.filterMap _ (List.map Val.str (p :: rest)) = p :: rest
    rw [List.map_cons, List.filterMap_cons]
    show p :: List.filterMap _ (List.map Val.str rest) = p :: rest
    rw [show List.filterMap _ (List.map Val.str rest)
      = Val.asStrList (.list (rest.map Val.str)) from rfl, ih]

/-- The grant scan over a single all-users grant: short-circuit when the
desired id is already a target, otherwise accumulate the grant's target
set. -/
theorem allUsersScan_single (pid : String) (ps : List String) (acc : Finset String) :
    allUsersScan pid [allUsersGrantVal ps] acc
      = if pid ∈ ps then none else some (acc ∪ ps.toFinset) := by
  simp [allUsersScan, allUsersGrantVal, Val.getD, Val.get?, Val.hasKey,
    List.lookup, asStrList_map_str]

/-- C1: Grant Merger reconciliation is monotonic. With an existing
all-principals grant over targets {P1, P2} and desired target P3 not yet a
member, the merger issues exactly one mutating call — a single grant call
— whose target set is the union {P1, P2, P3}, so previously authorized
target ids are never removed; reconciling again once P3 is a member issues
no mutating call and reports success. -/
theorem c1_grant_merger_monotonic (domain_id p1 p2 p3 du : String)
    (hdu : du ≠ "") (hmem : p3 ∉ [p1, p2]) (addRes : Except ErrMsg Unit) :
    (let r1 := authorize_all_users domain_id p3
        ⟨.ok (.dict [("domainUnitId", .str du)]),
         .ok (.dict [("grantList", .list [allUsersGrantVal [p1, p2]])]), addRes⟩
     r1.calls.countP Call.isAddAllUsersGrant = 1 ∧
     r1.calls.countP Call.isMutating = 1 ∧
     addAllUsersTargets r1.calls = some (insert p1 (insert p2 {p3}))) ∧
    (let r2 := authorize_all_users domain_id p3
        ⟨.ok (.dict [("domainUnitId", .str du)]),
         .ok (.dict [("grantList", .list [allUsersGrantVal [p1, p2, p3]])]), .ok ()⟩
     r2.outcome = .alreadyAuthorized ∧ r2.calls.countP Call.isMutating = 0) := by
  have hsu : ({p2} : Finset String) ∪ {p3} = insert p2 {p3} := by
    ext x
    simp [Finset.mem_union, Finset.mem_insert, Finset.mem_singleton]
  have htargets : ((∅ : Finset String) ∪ [p1, p2].toFinset) ∪ {p3}
      = insert p1 (insert p2 {p3}) := by
    simp [Finset.insert_union, Finset.empty_union, hsu]
  constructor
  · show (authorize_all_users domain_id p3
        ⟨.ok (.dict [("domainUnitId", .str du)]),
         .ok (.dict [("grantList", .list [allUsersGrantVal [p1, p2]])]), addRes⟩).calls.countP
        Call.isAddAllUsersGrant = 1 ∧ _
    cases addRes with
    | ok u =>
      simp [authorize_all_users, Val.get?, Val.getD, List.lookup, truthyOpt,
        Val.truthy, hdu, allUsersScan_single, hmem, Val.asValList,
        addAllUsersTargets, List.countP_cons, Call.isAddAllUsersGrant,
        Call.isMutating, htargets, List.countP, List.countP.go,
        Finset.empty_union, hsu]
    | error e =>
      cases hbe : isBenignAllUsersErr e <;>
        simp [authorize_all_users, Val.get?, Val.getD, List.lookup, truthyOpt,
          Val.truthy, hdu, allUsersScan_single, hmem, Val.asValList,
          addAllUsersTargets, List.countP_cons, Call.isAddAllUsersGrant,
          Call.isMutating, htargets, List.countP, List.countP.go,
          Finset.empty_union, hsu, hbe]
  · show (authorize_all_users domain_id p3
        ⟨.ok (.dict [("domainUnitId", .str du)]),
         .ok (.dict [("grantList", .list [allUsersGrantVal [p1, p2, p3]])]), .ok ()⟩).outcome
        = .alreadyAuthorized ∧ _
    simp [authorize_all_users, Val.get?, Val.getD, List.lookup, truthyOpt,
      Val.truthy, hdu, allUsersScan_single, Val.asValList,
      List.countP_cons, Call.isMutating, List.countP, List.countP.go]

/-- Witness for C1 at concrete targets {P1, P2} and desired target P3. -/
theorem c1_grant_merger_monotonic_witness :
    (let r1 := authorize_all_users "dzd-test" "P3"
        ⟨.ok (.dict [("domainUnitId", .str "du-root")]),
         .ok (.dict [("grantList", .list [allUsersGrantVal ["P1", "P2"]])]), .ok ()⟩
     r1.calls.countP Call.isAddAllUsersGrant = 1 ∧
     r1.calls.countP Call.isMutating = 1 ∧
     addAllUsersTargets r1.calls = some (insert "P1" (insert "P2" {"P3"}))) ∧
    (let r2 := authorize_all_users "dzd-test" "P3"
        ⟨.ok (.dict [("domainUnitId", .str "du-root")]),
         .ok (.dict [("grantList", .list [allUsersGrantVal ["P1", "P2", "P3"]])]), .ok ()⟩
     r2.outcome = .alreadyAuthorized ∧ r2.calls.countP Call.isMutating = 0) :=
  c1_grant_merger_monotonic "dzd-test" "P1" "P2" "P3" "du-root" (by decide) (by decide)
    (.ok ())

/-- C9: when listing the existing policy grants fails during the
all-users authorization step, the grant call is still issued but its
target-profile set is exactly the singleton of the desired profile id —
no pre-existing target id appears in the payload — and a warning is
logged. -/
theorem c9_listing_failure_singleton_grant (domain_id p3 du e : String)
    (hdu : du ≠ "") :
    (let r := authorize_all_users domain_id p3
        ⟨.ok (.dict [("domainUnitId", .str du)]), .error e, .ok ()⟩
     addAllUsersTargets r.calls = some {p3} ∧
     r.calls.countP Call.isAddAllUsersGrant = 1 ∧
     r.warns = ["Warning: Could not check existing grants: " ++ e] ∧
     r.outcome = .granted {p3}) := by
  simp [authorize_all_users, Val.get?, List.lookup, truthyOpt, Val.truthy, hdu,
    addAllUsersTargets, List.countP, List.countP.go, Call.isAddAllUsersGrant,
    Finset.empty_union]

/-- Witness for C9 at a concrete profile id and listing error. -/
theorem c9_listing_failure_singleton_grant_witness :
    (let r := authorize_all_users "dzd-test" "P3"
        ⟨.ok (.dict [("domainUnitId", .str "du-root")]), .error "throttled", .ok ()⟩
     addAllUsersTargets r.calls = some {"P3"} ∧
     r.calls.countP Call.isAddAllUsersGrant = 1 ∧
     r.warns = ["Warning: Could not check existing grants: " ++ "throttled"] ∧
     r.outcome = .granted {"P3"}) :=
  c9_listing_failure_singleton_grant "dzd-test" "P3" "du-root" "throttled" (by decide)

/-- Counterexample to C4 as stated: a create call
(`create_environment_blueprint`, reached because the lookup degraded) that
fails with a conflict-shaped "already exists" error makes the run abort
with that uncaught error instead of proceeding to completion with exit
code 0 — the create calls for the blueprint and the profile classify no
errors. -/
theorem c4_create_conflict_aborts_counterexample :
    isConflictMsg "ConflictException: Blueprint NeMo-Tooling already exists" = true ∧
    (runMain envOK
      (c4Oracle "ConflictException: Blueprint NeMo-Tooling already exists")).1
      = .raised "ConflictException: Blueprint NeMo-Tooling already exists" :=
  ⟨by rfl, by rfl⟩

/-- C4 (amended): conflict absorption holds at the guarded calls — the
two blueprint authorization grants, the all-users grant, and in the role
script the role creation (`EntityAlreadyExists`) — whose already-exists
failures leave the run proceeding to completion with exit code 0; but an
already-exists failure of the unguarded `create_environment_blueprint`
call propagates and aborts the run. -/
theorem c4_conflict_absorption_amended (eG1 eG2 eAll eCreate : ErrMsg)
    (msg arn : String)
    (hG1 : isConflictMsg eG1 = true) (hG2 : isConflictMsg eG2 = true)
    (hAll : isBenignAllUsersErr eAll = true)
    (hCr : isConflictMsg eCreate = true) :
    (runMain envOK (c4AbsorbOracle eG1 eG2 eAll)).1 = .completed "bp-nemo" "prof-1" ∧
    main2 (some "dzd-test") (script2Oracle ⟨"EntityAlreadyExists", msg⟩ arn)
      = .done arn ∧
    (runMain envOK (c4Oracle eCreate)).1 = .raised eCreate :=
  ⟨rfl, rfl, rfl⟩

/-- Witness for the amended C4 at concrete conflict-shaped errors. -/
theorem c4_conflict_absorption_amended_witness :
    (runMain envOK (c4AbsorbOracle "ConflictException" "Conflict: grant exists"
      "grant already exists")).1 = .completed "bp-nemo" "prof-1" ∧
    main2 (some "dzd-test") (script2Oracle
      ⟨"EntityAlreadyExists", "Role already exists"⟩
      "arn:aws:iam::111122223333:role/DataZoneDomainConnectionCreator")
      = .done "arn:aws:iam::111122223333:role/DataZoneDomainConnectionCreator" ∧
    (runMain envOK (c4Oracle "ConflictException: Blueprint exists")).1
      = .raised "ConflictException: Blueprint exists" :=
  c4_conflict_absorption_amended "ConflictException" "Conflict: grant exists"
    "grant already exists" "ConflictException: Blueprint exists"
    "Role already exists"
    "arn:aws:iam::111122223333:role/DataZoneDomainConnectionCreator"
    (by rfl) (by rfl) (by rfl) (by rfl)

/-- Counterexample to C5 as stated: the all-users grant call fails with a
non-conflict error (`AccessDeniedException`), yet the failure is not
propagated — the run continues to completion with exit code 0 instead of
aborting. -/
theorem c5_grant_failure_not_propagated_counterexample :
    isBenignAllUsersErr "AccessDeniedException" = false ∧
    (runMain envOK (c5GrantFailOracle "AccessDeniedException")).1
      = .completed "bp-nemo" "prof-1" :=
  ⟨by decide, by rfl⟩

/-- C5 (amended): failures of the unguarded mutating calls do propagate
and abort the remaining sequence — a failing `update_project_profile`
aborts the run before any all-users grant call is issued — but failures of
the grant calls are only logged: a non-conflict failure of the all-users
grant leaves the run completing with exit code 0. -/
theorem c5_fatal_propagation_amended (eU eAll : ErrMsg)
    (hAll : isBenignAllUsersErr eAll = false) :
    ((runMain envOK (c5UpdateFailOracle eU)).1 = .raised eU ∧
     (runMain envOK (c5UpdateFailOracle eU)).2.countP Call.isAddAllUsersGrant = 0) ∧
    (runMain envOK (c5GrantFailOracle eAll)).1 = .completed "bp-nemo" "prof-1" :=
  ⟨⟨rfl, rfl⟩, rfl⟩

/-- Witness for the amended C5 at concrete errors. -/
theorem c5_fatal_propagation_amended_witness :
    ((runMain envOK (c5UpdateFailOracle "InternalServerException")).1
      = .raised "InternalServerException" ∧
     (runMain envOK (c5UpdateFailOracle "InternalServerException")).2.countP
       Call.isAddAllUsersGrant = 0) ∧
    (runMain envOK (c5GrantFailOracle "AccessDeniedException")).1
      = .completed "bp-nemo" "prof-1" :=
  c5_fatal_propagation_amended "InternalServerException" "AccessDeniedException"
    (by decide)
